import Mathlib

/-!
Verification development for the synchronization-tracking and
periodic-monitoring subsystem of the Story node management bot.

The embedding models, from the source:
  - `src/src/services/sync_service.py` — `SyncMonitor` (state, metric
    computation, reference-endpoint fallback, sync-status orchestration);
  - `src/src/services/monitoring_service.py` — `MonitoringService`
    (per-chat activation flag, repeating-job scheduling, the per-fire
    monitoring update and its inactive-chat guard);
  - `src/src/utils/helpers.py` — `split_message`.

Numbers: Python ints become `Int`, wall-clock timestamps and the float
arithmetic of the metric computation become exact rationals `Rat`
(real-valued semantics of the float expressions), and `round(x, 2)`
becomes round-half-to-even at two decimals, matching the Python tie rule.
Network I/O is abstracted by passing each HTTP query outcome as an
explicit argument.
-/

/-- Round half to even of a rational to an integer, the tie rule of
Python round. -/
def roundHalfEven (q : ℚ) : ℤ :=
  if q - ⌊q⌋ < 1/2 then ⌊q⌋
  else if q - ⌊q⌋ > 1/2 then ⌊q⌋ + 1
  else if Even (⌊q⌋ : ℤ) then ⌊q⌋ else ⌊q⌋ + 1

/-- Python round(q, 2): round to two decimal places. -/
def round2 (q : ℚ) : ℚ :=
  (roundHalfEven (q * 100) : ℚ) / 100

/-- State of `SyncMonitor` (sync_service.py, lines 16-19): rolling
fields mutated by `calculate_sync_metrics`. `last_check_time` is a
timestamp in seconds, `None` initially. -/
structure SyncMonitor where
  last_height : ℤ
  last_check_time : Option ℚ
  sync_speed : ℚ
deriving Repr, DecidableEq

/-- The constructor `SyncMonitor.__init__`: height 0, no previous check
time, speed 0. -/
def SyncMonitor.init : SyncMonitor :=
  { last_height := 0, last_check_time := none, sync_speed := 0 }

/-- The dictionary returned by `calculate_sync_metrics`.
`time_remaining` is the estimated seconds remaining (the source then
formats `str(timedelta(seconds=int(s)))`; the duration formatting is
abstracted, presence and the underlying seconds value are kept). -/
structure SyncMetrics where
  current_height : ℤ
  network_height : ℤ
  blocks_behind : ℤ
  sync_percent : ℚ
  sync_speed : ℚ
  time_remaining : Option ℚ
  catching_up : Bool
deriving Repr, DecidableEq

/-- `SyncMonitor.calculate_sync_metrics` (sync_service.py, lines
62-117). `now` is `datetime.now()` in seconds. Returns the metrics
dictionary together with the updated monitor state. Mirrors the source
order: progress first, then the speed update guarded by
`last_height > 0 and last_check_time`, then the joint update of
`last_height` and `last_check_time`, then `time_remaining` from the
updated speed. -/
def SyncMonitor.calculate_sync_metrics (m : SyncMonitor) (now : ℚ)
    (current_height network_height : ℤ) (catching_up : Bool) :
    SyncMetrics × SyncMonitor :=
  let blocks_behind0 := network_height - current_height
  let pb : ℚ × ℤ :=
    if blocks_behind0 > 0 then
      let sync_percent0 : ℚ :=
        if network_height > 0 then
          ((current_height : ℚ) / (network_height : ℚ)) * 100
        else 0
      (min (9999/100 : ℚ) (round2 sync_percent0), blocks_behind0)
    else ((100 : ℚ), (0 : ℤ))
  let sync_percent := pb.1
  let blocks_behind := pb.2
  let sync_speed : ℚ :=
    if m.last_height > 0 then
      match m.last_check_time with
      | some t =>
        let time_diff := now - t
        if time_diff > 0 then
          ((current_height - m.last_height : ℤ) : ℚ) / time_diff
        else m.sync_speed
      | none => m.sync_speed
    else m.sync_speed
  let time_remaining : Option ℚ :=
    if sync_speed > 0 ∧ blocks_behind > 0 then
      some ((blocks_behind : ℚ) / sync_speed)
    else none
  ({ current_height := current_height
     network_height := network_height
     blocks_behind := blocks_behind
     sync_percent := sync_percent
     sync_speed := sync_speed
     time_remaining := time_remaining
     catching_up := catching_up },
   { last_height := current_height
     last_check_time := some now
     sync_speed := sync_speed })

example :
    (SyncMonitor.init.calculate_sync_metrics 0 50 100 false).1.blocks_behind
      = 50 := by decide

example :
    ((SyncMonitor.mk 1000 (some 0) 0).calculate_sync_metrics 50 1100 2000
      false).2.sync_speed = 2 := by
  norm_num [SyncMonitor.calculate_sync_metrics]

example :
    (SyncMonitor.init.calculate_sync_metrics 0 5 0 false).1.sync_percent
      = 100 := by
  norm_num [SyncMonitor.calculate_sync_metrics, SyncMonitor.init]

/-- Outcome of one HTTP GET against a reference RPC endpoint, as seen
by get_network_height (sync_service.py, lines 28-44): `success h` is
status 200 with a body whose result.sync_info.latest_block_height
parses to h; `badStatus` is a reply with a status other than 200 (the
block falls through without raising); `exn` is any raised exception
(unreachable endpoint, malformed JSON, missing field, bad int). -/
inductive FetchResult where
  | success (height : ℤ)
  | badStatus (code : ℕ)
  | exn
deriving Repr, DecidableEq

/-- Height obtained from one endpoint, if any. -/
def FetchResult.heightOk : FetchResult → Option ℤ
  | .success h => some h
  | .badStatus _ => none
  | .exn => none

/-- Message of the exception raised when both reference endpoints fail
(sync_service.py, line 46); the spec names this NoReferenceAvailable. -/
def networkHeightError : String :=
  "Failed to get network height from any RPC endpoint"

/-- `SyncMonitor.get_network_height` (sync_service.py, lines 21-46):
try endpoint 1; on any failure try endpoint 2; if both fail, raise.
The two query outcomes are passed in as arguments. -/
def get_network_height (r1 r2 : FetchResult) : Except String ℤ :=
  match r1.heightOk with
  | some h => Except.ok h
  | none =>
    match r2.heightOk with
    | some h => Except.ok h
    | none => Except.error networkHeightError

/-- Parsed fields of the local node status document used by
get_sync_status (sync_service.py, lines 131-132, 116). -/
structure NodeStatus where
  latest_block_height : ℤ
  catching_up : Bool
deriving Repr, DecidableEq

/-- `SyncMonitor.get_sync_status` (sync_service.py, lines 119-147):
network height first, then the local node status (either may raise and
the first error propagates unchanged, with no partial snapshot), then
calculate_sync_metrics and the health classification
blocks_behind < 100 and not catching_up. -/
def SyncMonitor.get_sync_status (m : SyncMonitor) (now : ℚ)
    (r1 r2 : FetchResult) (node : Except String NodeStatus) :
    Except String ((SyncMetrics × Bool) × SyncMonitor) :=
  match get_network_height r1 r2 with
  | Except.error e => Except.error e
  | Except.ok network_height =>
    match node with
    | Except.error e => Except.error e
    | Except.ok st =>
      let res := m.calculate_sync_metrics now st.latest_block_height
        network_height st.catching_up
      let is_healthy :=
        decide (res.1.blocks_behind < 100) && !res.1.catching_up
      Except.ok ((res.1, is_healthy), res.2)

/-- One fire of the periodic monitoring task
(monitoring_service.py, lines 19-126), restricted to its sync-relevant
behavior: the fire first reads the chat-data monitoring flag and
silently returns when it is false; otherwise it constructs a brand-new
SyncMonitor (line 70) and calls get_sync_status on it, producing either
the metrics message or a degraded error block. `none` means nothing was
sent; the fresh monitor state produced by the call is discarded. -/
def send_monitoring_update (monitoring : Bool) (now : ℚ)
    (r1 r2 : FetchResult) (node : Except String NodeStatus) :
    Option (Except String (SyncMetrics × Bool)) :=
  if monitoring = false then none
  else
    let sync_monitor := SyncMonitor.init
    match sync_monitor.get_sync_status now r1 r2 node with
    | Except.ok (res, _) => some (Except.ok res)
    | Except.error e => some (Except.error e)

/-- One polling observation: wall-clock time, the two reference
endpoint outcomes, and the local node query outcome. -/
structure PollObs where
  now : ℚ
  r1 : FetchResult
  r2 : FetchResult
  node : Except String NodeStatus
deriving Repr

/-- Successive fires of the monitoring task as the source executes
them with the chat active: every fire constructs a brand-new
SyncMonitor, so no monitor state flows from one fire to the next. -/
def actualFireOutputs :
    List PollObs → List (Option (Except String (SyncMetrics × Bool)))
  | [] => []
  | o :: rest =>
    send_monitoring_update true o.now o.r1 o.r2 o.node
      :: actualFireOutputs rest

/-- Modelled from the spec for comparison: under the MonitorState
reading of the spec the monitor state is a singleton that persists
across polls and is mutated only by the metric computation, so
successive fires thread one SyncMonitor state through get_sync_status
(the state is unchanged when a query fails before the computation). -/
def specFireOutputs (m : SyncMonitor) :
    List PollObs → List (Option (Except String (SyncMetrics × Bool)))
  | [] => []
  | o :: rest =>
    match m.get_sync_status o.now o.r1 o.r2 o.node with
    | Except.ok (res, m2) => some (Except.ok res) :: specFireOutputs m2 rest
    | Except.error e => some (Except.error e) :: specFireOutputs m rest

/-- Reported sync speed of one fire output, when the fire produced a
metrics message. -/
def outputSpeed :
    Option (Except String (SyncMetrics × Bool)) → Option ℚ
  | some (Except.ok (metrics, _)) => some metrics.sync_speed
  | _ => none

/-- One scheduled repeating job in the job queue
(job_queue.run_repeating in monitoring_service.py, lines 166-172).
The job name in the source is the string monitor_<chat_id>; the chat id
determines it, so the name is modelled by the chat id. `first` is the
delay before the first run, in seconds. -/
structure Job where
  chat_id : ℤ
  interval : ℤ
  first : ℤ
deriving Repr, DecidableEq

/-- `MonitoringService.activate_monitoring` (monitoring_service.py,
lines 152-173): a no-op returning false when the chat-data flag is
already set; otherwise sets the flag, schedules a repeating job at
`interval` seconds with a fixed 10-second initial delay, and returns
true. Returns (return value, (new flag, new job queue)). -/
def activate_monitoring (monitoring : Bool) (jobs : List Job)
    (chat_id interval : ℤ) : Bool × (Bool × List Job) :=
  if monitoring then (false, (monitoring, jobs))
  else (true, (true, jobs ++ [Job.mk chat_id interval 10]))

/-- `MonitoringService.deactivate_monitoring` (monitoring_service.py,
lines 175-191): returns false with no change when the flag is not set
(including for a never-activated chat, where chat_data.get defaults to
false); otherwise clears the flag, removes every job registered under
monitor_<chat_id>, and returns true. -/
def deactivate_monitoring (monitoring : Bool) (jobs : List Job)
    (chat_id : ℤ) : Bool × (Bool × List Job) :=
  if ¬ monitoring then (false, (monitoring, jobs))
  else (true, (false, jobs.filter (fun j => j.chat_id ≠ chat_id)))

/-- Event at one chat, as the scheduler and the fire callback see it:
a fire of the repeating task together with its poll observation, a
deactivate command, or an activate command. -/
inductive ChatEvent where
  | fire (o : PollObs)
  | deactivate
  | activate (interval : ℤ)

/-- Step of one chat over (monitoring flag, job queue): a fire calls
send_monitoring_update, whose first action is to read the flag and
silently produce nothing when the chat is inactive
(monitoring_service.py, lines 21-23); deactivate and activate run the
scheduler operations and send nothing themselves. -/
def chatStep (chat_id : ℤ) (s : Bool × List Job) (e : ChatEvent) :
    (Bool × List Job) × Option (Except String (SyncMetrics × Bool)) :=
  match e with
  | ChatEvent.fire o =>
    (s, send_monitoring_update s.1 o.now o.r1 o.r2 o.node)
  | ChatEvent.deactivate =>
    ((deactivate_monitoring s.1 s.2 chat_id).2, none)
  | ChatEvent.activate interval =>
    ((activate_monitoring s.1 s.2 chat_id interval).2, none)

/-- Message outputs of a sequence of chat events. -/
def chatRun (chat_id : ℤ) (s : Bool × List Job) :
    List ChatEvent → List (Option (Except String (SyncMetrics × Bool)))
  | [] => []
  | e :: es =>
    (chatStep chat_id s e).2 :: chatRun chat_id (chatStep chat_id s e).1 es

/-- Python str.rfind(ch, 0, hi) over a string modelled as a character
list: the index of the last occurrence of ch strictly below hi, if
any (helpers.py, line 39 searches the newline in message[0:max_length]). -/
def rfind (c : Char) : List Char → Nat → Option Nat
  | [], _ => none
  | _ :: _, 0 => none
  | x :: xs, Nat.succ hi =>
    match rfind c xs hi with
    | some j => some (j + 1)
    | none => if x = c then some 0 else none

/-- The split index chosen by one iteration of the split_message loop
(helpers.py, lines 39-41): the last newline strictly before max_length,
or max_length itself when the searched window holds no newline. -/
def split_index_of (message : List Char) (max_length : Nat) : Nat :=
  match rfind (Char.ofNat 10) message max_length with
  | some i => i
  | none => max_length

/-- One iteration of the split_message while-loop (helpers.py, lines
42-43): the part appended is message[:split_index] and the loop
continues on message[split_index:]. -/
def split_message_step (message : List Char) (max_length : Nat) :
    List Char × List Char :=
  (message.take (split_index_of message max_length),
   message.drop (split_index_of message max_length))

/-- `split_message` (helpers.py, lines 26-45) with explicit fuel: the
while-loop runs as long as the message is longer than max_length, and
`none` models the loop exceeding the given number of iterations. -/
def split_message_fuel :
    Nat → List Char → Nat → Option (List (List Char))
  | 0, _, _ => none
  | Nat.succ fuel, message, max_length =>
    if max_length < message.length then
      match split_message_fuel fuel
          (split_message_step message max_length).2 max_length with
      | some parts =>
        some ((split_message_step message max_length).1 :: parts)
      | none => none
    else some [message]

/-- `split_message` with the fuel bound message.length + 1: when every
iteration makes progress the loop runs at most message.length times, so
a `none` result occurs exactly when the Python loop never exits. -/
def split_message (message : List Char) (max_length : Nat) :
    Option (List (List Char)) :=
  split_message_fuel (message.length + 1) message max_length

/-- The failing input for the split_message loop: a message that starts
with a newline, holds no other newline among its first 4000 characters,
and is longer than 4000 characters. rfind then returns index 0, the
appended part is empty, and the remainder is the whole message, so the
while-loop repeats forever. -/
def stuck_input : List Char := Char.ofNat 10 :: List.replicate 4000 'a'

theorem calc_metrics_blocks_behind (m : SyncMonitor) (now : ℚ) (c n : ℤ)
    (b : Bool) :
    (m.calculate_sync_metrics now c n b).1.blocks_behind
      = if 0 < n - c then n - c else 0 := by
  simp only [SyncMonitor.calculate_sync_metrics, gt_iff_lt]
  split <;> rfl

theorem calc_metrics_sync_percent (m : SyncMonitor) (now : ℚ) (c n : ℤ)
    (b : Bool) :
    (m.calculate_sync_metrics now c n b).1.sync_percent
      = if 0 < n - c then
          min (9999/100 : ℚ)
            (round2 (if 0 < n then ((c : ℚ) / (n : ℚ)) * 100 else 0))
        else 100 := by
  simp only [SyncMonitor.calculate_sync_metrics, gt_iff_lt]
  split <;> rfl

theorem calc_metrics_sync_speed (m : SyncMonitor) (now : ℚ) (c n : ℤ)
    (b : Bool) :
    (m.calculate_sync_metrics now c n b).2.sync_speed
      = if 0 < m.last_height then
          match m.last_check_time with
          | some t =>
            if 0 < now - t then ((c - m.last_height : ℤ) : ℚ) / (now - t)
            else m.sync_speed
          | none => m.sync_speed
        else m.sync_speed := by
  simp only [SyncMonitor.calculate_sync_metrics, gt_iff_lt]

theorem calc_metrics_fst_sync_speed (m : SyncMonitor) (now : ℚ) (c n : ℤ)
    (b : Bool) :
    (m.calculate_sync_metrics now c n b).1.sync_speed
      = (m.calculate_sync_metrics now c n b).2.sync_speed := rfl

theorem calc_metrics_state (m : SyncMonitor) (now : ℚ) (c n : ℤ)
    (b : Bool) :
    (m.calculate_sync_metrics now c n b).2.last_height = c ∧
    (m.calculate_sync_metrics now c n b).2.last_check_time = some now :=
  ⟨rfl, rfl⟩

theorem calc_metrics_time_remaining (m : SyncMonitor) (now : ℚ) (c n : ℤ)
    (b : Bool) :
    (m.calculate_sync_metrics now c n b).1.time_remaining
      = if 0 < (m.calculate_sync_metrics now c n b).2.sync_speed ∧
           0 < (m.calculate_sync_metrics now c n b).1.blocks_behind then
          some (((m.calculate_sync_metrics now c n b).1.blocks_behind : ℚ)
            / (m.calculate_sync_metrics now c n b).2.sync_speed)
        else none := by
  simp only [SyncMonitor.calculate_sync_metrics, gt_iff_lt]

theorem chatRun_inactive (chat_id : ℤ) (evs : List ChatEvent) :
    ∀ jobs : List Job,
      (∀ e ∈ evs, ∀ i : ℤ, e ≠ ChatEvent.activate i) →
      ∀ o ∈ chatRun chat_id (false, jobs) evs, o = none := by
  induction evs with
  | nil =>
    intro jobs _ o ho
    simp [chatRun] at ho
  | cons e es ih =>
    intro jobs hna o ho
    have htail : ∀ e2 ∈ es, ∀ i : ℤ, e2 ≠ ChatEvent.activate i :=
      fun e2 he2 i => hna e2 (List.mem_cons_of_mem _ he2) i
    cases e with
    | fire obs =>
      have hstep : chatStep chat_id (false, jobs) (ChatEvent.fire obs)
          = ((false, jobs), none) := by
        simp [chatStep, send_monitoring_update]
      rw [chatRun, hstep] at ho
      rcases List.mem_cons.mp ho with h | h
      · exact h
      · exact ih jobs htail o h
    | deactivate =>
      have hstep : chatStep chat_id (false, jobs) ChatEvent.deactivate
          = ((false, jobs), none) := by
        simp [chatStep, deactivate_monitoring]
      rw [chatRun, hstep] at ho
      rcases List.mem_cons.mp ho with h | h
      · exact h
      · exact ih jobs htail o h
    | activate i =>
      exact absurd rfl (hna _ (List.mem_cons_self _ _) i)

theorem rfind_nil (c : Char) (hi : Nat) : rfind c [] hi = none := rfl

theorem rfind_zero (c x : Char) (xs : List Char) :
    rfind c (x :: xs) 0 = none := rfl

theorem rfind_cons_succ (c x : Char) (xs : List Char) (hi : Nat) :
    rfind c (x :: xs) (hi + 1)
      = match rfind c xs hi with
        | some j => some (j + 1)
        | none => if x = c then some 0 else none := rfl

theorem rfind_lt (c : Char) :
    ∀ (s : List Char) (hi i : Nat), rfind c s hi = some i → i < hi := by
  intro s
  induction s with
  | nil =>
    intro hi i h
    rw [rfind_nil] at h
    exact absurd h (by simp)
  | cons x xs ih =>
    intro hi i h
    cases hi with
    | zero =>
      rw [rfind_zero] at h
      exact absurd h (by simp)
    | succ hi2 =>
      rw [rfind_cons_succ] at h
      cases hr : rfind c xs hi2 with
      | some j =>
        rw [hr] at h
        simp only [Option.some.injEq] at h
        subst h
        exact Nat.succ_lt_succ (ih hi2 j hr)
      | none =>
        rw [hr] at h
        by_cases hxc : x = c
        · rw [if_pos hxc] at h
          simp only [Option.some.injEq] at h
          subst h
          exact Nat.succ_pos hi2
        · rw [if_neg hxc] at h
          exact absurd h (by simp)

theorem rfind_replicate (c a : Char) (h : ¬ a = c) :
    ∀ (n hi : Nat), rfind c (List.replicate n a) hi = none := by
  intro n
  induction n with
  | zero =>
    intro hi
    rw [List.replicate_zero, rfind_nil]
  | succ k ih =>
    intro hi
    cases hi with
    | zero => rw [List.replicate_succ, rfind_zero]
    | succ hi2 =>
      rw [List.replicate_succ, rfind_cons_succ, ih hi2]
      simp [h]

theorem split_index_le (message : List Char) (max_length : Nat) :
    split_index_of message max_length ≤ max_length := by
  unfold split_index_of
  cases h : rfind (Char.ofNat 10) message max_length with
  | none => exact Nat.le_refl _
  | some i => exact Nat.le_of_lt (rfind_lt _ message max_length i h)

theorem split_message_fuel_succ (fuel : Nat) (message : List Char)
    (max_length : Nat) :
    split_message_fuel (Nat.succ fuel) message max_length
      = if max_length < message.length then
          match split_message_fuel fuel
              (split_message_step message max_length).2 max_length with
          | some parts =>
            some ((split_message_step message max_length).1 :: parts)
          | none => none
        else some [message] := rfl

theorem split_message_fuel_sound (max_length : Nat) :
    ∀ (fuel : Nat) (message : List Char) (parts : List (List Char)),
      split_message_fuel fuel message max_length = some parts →
      parts.flatten = message ∧ ∀ p ∈ parts, p.length ≤ max_length := by
  intro fuel
  induction fuel with
  | zero =>
    intro message parts h
    exact absurd h (by simp [split_message_fuel])
  | succ f ih =>
    intro message parts h
    simp only [split_message_fuel] at h
    by_cases hlen : max_length < message.length
    · rw [if_pos hlen] at h
      cases hrec : split_message_fuel f
          (split_message_step message max_length).2 max_length with
      | none =>
        rw [hrec] at h
        exact absurd h (by simp)
      | some parts2 =>
        rw [hrec] at h
        simp only [Option.some.injEq] at h
        subst h
        obtain ⟨hjoin, hlens⟩ := ih _ _ hrec
        constructor
        · simp only [List.flatten_cons, hjoin, split_message_step]
          exact List.take_append_drop _ _
        · intro p hp
          rcases List.mem_cons.mp hp with hp | hp
          · subst hp
            calc (split_message_step message max_length).1.length
                = min (split_index_of message max_length)
                    message.length := by
                  simp [split_message_step]
              _ ≤ split_index_of message max_length := min_le_left _ _
              _ ≤ max_length := split_index_le _ _
          · exact hlens p hp
    · rw [if_neg hlen] at h
      simp only [Option.some.injEq] at h
      subst h
      refine ⟨by simp, ?_⟩
      intro p hp
      rw [List.mem_singleton] at hp
      subst hp
      omega

theorem split_message_fuel_stuck (message : List Char) (max_length : Nat)
    (hidx : split_index_of message max_length = 0)
    (hlen : max_length < message.length) :
    ∀ fuel, split_message_fuel fuel message max_length = none := by
  intro fuel
  induction fuel with
  | zero => rfl
  | succ f ih =>
    simp only [split_message_fuel]
    rw [if_pos hlen]
    have hdrop : (split_message_step message max_length).2 = message := by
      simp [split_message_step, hidx]
    rw [hdrop, ih]

/-- C1: with a nonnegative current height, calculate_sync_metrics
returns blocks_behind = network_height - current_height exactly and
sync_percent = min(99.99, round2(current/network*100)) < 100 whenever
network_height > current_height; blocks_behind = 0 and sync_percent =
100 whenever network_height <= current_height; and sync_percent is
never exactly 100 while blocks_behind > 0. -/
theorem C1_sync_progress_metrics (m : SyncMonitor) (now : ℚ) (c n : ℤ)
    (b : Bool) (hc : 0 ≤ c) :
    (c < n →
      (m.calculate_sync_metrics now c n b).1.blocks_behind = n - c ∧
      (m.calculate_sync_metrics now c n b).1.sync_percent
        = min (9999/100 : ℚ) (round2 (((c : ℚ) / (n : ℚ)) * 100)) ∧
      (m.calculate_sync_metrics now c n b).1.sync_percent < 100) ∧
    (n ≤ c →
      (m.calculate_sync_metrics now c n b).1.blocks_behind = 0 ∧
      (m.calculate_sync_metrics now c n b).1.sync_percent = 100) ∧
    (0 < (m.calculate_sync_metrics now c n b).1.blocks_behind →
      (m.calculate_sync_metrics now c n b).1.sync_percent ≠ 100) := by
  refine ⟨?_, ?_, ?_⟩
  · intro h
    have h1 : 0 < n - c := by omega
    have h2 : (0 : ℤ) < n := by omega
    rw [calc_metrics_blocks_behind, calc_metrics_sync_percent, if_pos h1,
      if_pos h1, if_pos h2]
    refine ⟨rfl, rfl, ?_⟩
    calc min (9999/100 : ℚ) (round2 (((c : ℚ) / (n : ℚ)) * 100))
        ≤ 9999/100 := min_le_left _ _
      _ < 100 := by norm_num
  · intro h
    have h1 : ¬ (0 < n - c) := by omega
    rw [calc_metrics_blocks_behind, calc_metrics_sync_percent, if_neg h1,
      if_neg h1]
    exact ⟨rfl, rfl⟩
  · intro h
    rw [calc_metrics_blocks_behind] at h
    rw [calc_metrics_sync_percent]
    by_cases h1 : 0 < n - c
    · rw [if_pos h1]
      have hle : min (9999/100 : ℚ)
          (round2 (if 0 < n then ((c : ℚ) / (n : ℚ)) * 100 else 0))
            ≤ 9999/100 := min_le_left _ _
      intro heq
      rw [heq] at hle
      norm_num at hle
    · rw [if_neg h1] at h
      exact absurd h (by norm_num)

theorem C1_sync_progress_metrics_witness :
    (SyncMonitor.init.calculate_sync_metrics 0 50 100 false).1.blocks_behind
      = 50 ∧
    (SyncMonitor.init.calculate_sync_metrics 0 50 100 false).1.sync_percent
      < 100 ∧
    (SyncMonitor.init.calculate_sync_metrics 0 200 100 false).1.blocks_behind
      = 0 ∧
    (SyncMonitor.init.calculate_sync_metrics 0 200 100 false).1.sync_percent
      = 100 := by
  have ha := (C1_sync_progress_metrics SyncMonitor.init 0 50 100 false
    (by norm_num)).1 (by norm_num)
  have hb := (C1_sync_progress_metrics SyncMonitor.init 0 200 100 false
    (by norm_num)).2.1 (by norm_num)
  exact ⟨ha.1.trans (by norm_num), ha.2.2, hb.1, hb.2⟩

/-- C5 counterexample: at network_height = 0 with current_height = 5 the
source returns sync_percent = 100, not 0 — the `else 0` guard sits
inside the blocks_behind > 0 branch, which a zero network height never
reaches for a nonnegative current height. -/
theorem C5_counterexample :
    (SyncMonitor.init.calculate_sync_metrics 0 5 0 false).1.sync_percent
      ≠ 0 ∧
    (SyncMonitor.init.calculate_sync_metrics 0 5 0 false).1.sync_percent
      = 100 := by
  constructor <;>
    norm_num [SyncMonitor.calculate_sync_metrics, SyncMonitor.init]

/-- C5 amended: for network_height = 0 and a nonnegative current height,
calculate_sync_metrics performs no division and returns blocks_behind =
0 with sync_percent = 100 (the zero fallback is reachable only for a
negative current height). -/
theorem C5_network_zero (m : SyncMonitor) (now : ℚ) (c : ℤ) (b : Bool)
    (hc : 0 ≤ c) :
    (m.calculate_sync_metrics now c 0 b).1.sync_percent = 100 ∧
    (m.calculate_sync_metrics now c 0 b).1.blocks_behind = 0 := by
  have h1 : ¬ (0 < (0 : ℤ) - c) := by omega
  rw [calc_metrics_sync_percent, calc_metrics_blocks_behind, if_neg h1,
    if_neg h1]
  exact ⟨rfl, rfl⟩

theorem C5_network_zero_witness :
    (SyncMonitor.init.calculate_sync_metrics 3 7 0 true).1.sync_percent
      = 100 :=
  (C5_network_zero SyncMonitor.init 3 7 true (by norm_num)).1

/-- C2: on a poll with a previous height > 0, a previous check time t,
and elapsed now - t > 0, the stored sync_speed becomes
(current_height - last_height) / (now - t), replacing the previous
value; on a first-ever poll (no previous check time) or when the
elapsed time is nonpositive, sync_speed keeps its previous value; and
time_remaining is present iff the updated sync_speed > 0 and
blocks_behind > 0, in which case it is blocks_behind / sync_speed
seconds. -/
theorem C2_sync_speed_update (m : SyncMonitor) (now t : ℚ) (c n : ℤ)
    (b : Bool) :
    (0 < m.last_height → m.last_check_time = some t → 0 < now - t →
      (m.calculate_sync_metrics now c n b).2.sync_speed
        = ((c - m.last_height : ℤ) : ℚ) / (now - t)) ∧
    (m.last_check_time = none →
      (m.calculate_sync_metrics now c n b).2.sync_speed = m.sync_speed) ∧
    (0 < m.last_height → m.last_check_time = some t → now - t ≤ 0 →
      (m.calculate_sync_metrics now c n b).2.sync_speed = m.sync_speed) ∧
    ((m.calculate_sync_metrics now c n b).1.time_remaining ≠ none ↔
      (0 < (m.calculate_sync_metrics now c n b).2.sync_speed ∧
       0 < (m.calculate_sync_metrics now c n b).1.blocks_behind)) ∧
    (0 < (m.calculate_sync_metrics now c n b).2.sync_speed →
     0 < (m.calculate_sync_metrics now c n b).1.blocks_behind →
      (m.calculate_sync_metrics now c n b).1.time_remaining
        = some (((m.calculate_sync_metrics now c n b).1.blocks_behind : ℚ)
            / (m.calculate_sync_metrics now c n b).2.sync_speed)) := by
  refine ⟨?_, ?_, ?_, ?_, ?_⟩
  · intro h1 h2 h3
    rw [calc_metrics_sync_speed, if_pos h1, h2]
    show (if 0 < now - t then ((c - m.last_height : ℤ) : ℚ) / (now - t)
      else m.sync_speed) = ((c - m.last_height : ℤ) : ℚ) / (now - t)
    rw [if_pos h3]
  · intro h2
    rw [calc_metrics_sync_speed, h2]
    split <;> rfl
  · intro h1 h2 h3
    rw [calc_metrics_sync_speed, if_pos h1, h2]
    show (if 0 < now - t then ((c - m.last_height : ℤ) : ℚ) / (now - t)
      else m.sync_speed) = m.sync_speed
    rw [if_neg (by linarith)]
  · rw [calc_metrics_time_remaining]
    split <;> rename_i hcond <;> simp [hcond]
  · intro hs hb
    rw [calc_metrics_time_remaining, if_pos ⟨hs, hb⟩]

theorem C2_sync_speed_update_witness :
    ((SyncMonitor.mk 1000 (some 0) 0).calculate_sync_metrics 50 1100 2000
      false).2.sync_speed = 2 ∧
    (SyncMonitor.init.calculate_sync_metrics 50 1100 2000
      false).2.sync_speed = 0 ∧
    (SyncMonitor.init.calculate_sync_metrics 50 1100 2000
      false).1.time_remaining = none := by
  refine ⟨?_, ?_, ?_⟩
  · have h := (C2_sync_speed_update (SyncMonitor.mk 1000 (some 0) 0) 50 0
      1100 2000 false).1 (by norm_num) rfl (by norm_num)
    rw [h]
    norm_num
  · exact (C2_sync_speed_update SyncMonitor.init 50 0 1100 2000
      false).2.1 rfl
  · have h := (C2_sync_speed_update SyncMonitor.init 50 0 1100 2000
      false).2.2.2.1
    have hz : (SyncMonitor.init.calculate_sync_metrics 50 1100 2000
        false).2.sync_speed = 0 :=
      (C2_sync_speed_update SyncMonitor.init 50 0 1100 2000 false).2.1 rfl
    by_contra hne
    have := h.mp hne
    rw [hz] at this
    exact absurd this.1 (by norm_num)

/-- C3: endpoint 1 wins when it succeeds; endpoint 2 is consulted
exactly when endpoint 1 fails (unreachable, non-200 or malformed) and
its success wins; when both fail, get_network_height raises the
no-reference error, and get_sync_status propagates it; when the network
height succeeds but the local status query fails, get_sync_status
propagates that error unchanged — never a partial snapshot. -/
theorem C3_reference_fallback (r1 r2 : FetchResult) :
    (∀ h : ℤ, r1 = FetchResult.success h →
      get_network_height r1 r2 = Except.ok h) ∧
    (r1.heightOk = none → ∀ h : ℤ, r2 = FetchResult.success h →
      get_network_height r1 r2 = Except.ok h) ∧
    (r1.heightOk = none → r2.heightOk = none →
      get_network_height r1 r2 = Except.error networkHeightError) ∧
    (∀ (m : SyncMonitor) (now : ℚ) (node : Except String NodeStatus),
      r1.heightOk = none → r2.heightOk = none →
      m.get_sync_status now r1 r2 node
        = Except.error networkHeightError) ∧
    (∀ (m : SyncMonitor) (now : ℚ) (h : ℤ) (e : String),
      get_network_height r1 r2 = Except.ok h →
      m.get_sync_status now r1 r2 (Except.error e) = Except.error e) := by
  refine ⟨?_, ?_, ?_, ?_, ?_⟩
  · intro h hr1
    subst hr1
    rfl
  · intro h1 h hr2
    subst hr2
    unfold get_network_height
    rw [h1]
    rfl
  · intro h1 h2
    unfold get_network_height
    rw [h1, h2]
  · intro m now node h1 h2
    have hnet : get_network_height r1 r2
        = Except.error networkHeightError := by
      unfold get_network_height
      rw [h1, h2]
    simp [SyncMonitor.get_sync_status, hnet]
  · intro m now h e hnet
    simp [SyncMonitor.get_sync_status, hnet]

theorem C3_reference_fallback_witness :
    get_network_height (FetchResult.success 7) FetchResult.exn
      = Except.ok 7 ∧
    get_network_height FetchResult.exn (FetchResult.success 9)
      = Except.ok 9 ∧
    get_network_height (FetchResult.badStatus 500) FetchResult.exn
      = Except.error networkHeightError ∧
    SyncMonitor.init.get_sync_status 0 FetchResult.exn
      (FetchResult.badStatus 404) (Except.ok (NodeStatus.mk 5 false))
      = Except.error networkHeightError ∧
    SyncMonitor.init.get_sync_status 0 (FetchResult.success 7)
      FetchResult.exn (Except.error "node down")
      = Except.error "node down" := by
  refine ⟨?_, ?_, ?_, ?_, ?_⟩
  · exact (C3_reference_fallback (FetchResult.success 7)
      FetchResult.exn).1 7 rfl
  · exact (C3_reference_fallback FetchResult.exn
      (FetchResult.success 9)).2.1 rfl 9 rfl
  · exact (C3_reference_fallback (FetchResult.badStatus 500)
      FetchResult.exn).2.2.1 rfl rfl
  · exact (C3_reference_fallback FetchResult.exn
      (FetchResult.badStatus 404)).2.2.2.1 SyncMonitor.init 0
      (Except.ok (NodeStatus.mk 5 false)) rfl rfl
  · exact (C3_reference_fallback (FetchResult.success 7)
      FetchResult.exn).2.2.2.2 SyncMonitor.init 0 7 "node down" rfl

/-- C4 counterexample: two consecutive successful polls (heights 1000
then 1100, 50 seconds apart, network at 2000). A persistent singleton
MonitorState would report sync_speed 2 on the second poll; the source
constructs a fresh SyncMonitor inside every fire and reports 0, so the
actual fire outputs differ from the persistent-state outputs. -/
theorem C4_counterexample :
    (actualFireOutputs
        [PollObs.mk 0 (FetchResult.success 2000) FetchResult.exn
          (Except.ok (NodeStatus.mk 1000 true)),
         PollObs.mk 50 (FetchResult.success 2000) FetchResult.exn
          (Except.ok (NodeStatus.mk 1100 true))]).map outputSpeed
      = [some 0, some 0] ∧
    (specFireOutputs SyncMonitor.init
        [PollObs.mk 0 (FetchResult.success 2000) FetchResult.exn
          (Except.ok (NodeStatus.mk 1000 true)),
         PollObs.mk 50 (FetchResult.success 2000) FetchResult.exn
          (Except.ok (NodeStatus.mk 1100 true))]).map outputSpeed
      = [some 0, some 2] ∧
    actualFireOutputs
        [PollObs.mk 0 (FetchResult.success 2000) FetchResult.exn
          (Except.ok (NodeStatus.mk 1000 true)),
         PollObs.mk 50 (FetchResult.success 2000) FetchResult.exn
          (Except.ok (NodeStatus.mk 1100 true))]
      ≠ specFireOutputs SyncMonitor.init
        [PollObs.mk 0 (FetchResult.success 2000) FetchResult.exn
          (Except.ok (NodeStatus.mk 1000 true)),
         PollObs.mk 50 (FetchResult.success 2000) FetchResult.exn
          (Except.ok (NodeStatus.mk 1100 true))] := by
  have ha : (actualFireOutputs
      [PollObs.mk 0 (FetchResult.success 2000) FetchResult.exn
        (Except.ok (NodeStatus.mk 1000 true)),
       PollObs.mk 50 (FetchResult.success 2000) FetchResult.exn
        (Except.ok (NodeStatus.mk 1100 true))]).map outputSpeed
      = [some 0, some 0] := by
    norm_num [actualFireOutputs, send_monitoring_update,
      SyncMonitor.get_sync_status, get_network_height,
      FetchResult.heightOk, SyncMonitor.calculate_sync_metrics,
      SyncMonitor.init, outputSpeed]
  have hb : (specFireOutputs SyncMonitor.init
      [PollObs.mk 0 (FetchResult.success 2000) FetchResult.exn
        (Except.ok (NodeStatus.mk 1000 true)),
       PollObs.mk 50 (FetchResult.success 2000) FetchResult.exn
        (Except.ok (NodeStatus.mk 1100 true))]).map outputSpeed
      = [some 0, some 2] := by
    norm_num [specFireOutputs, SyncMonitor.get_sync_status,
      get_network_height, FetchResult.heightOk,
      SyncMonitor.calculate_sync_metrics, SyncMonitor.init, outputSpeed]
  refine ⟨ha, hb, fun heq => ?_⟩
  rw [heq, hb] at ha
  simp at ha

/-- C4 amended: every fire of the monitoring task constructs a fresh
SyncMonitor, so no monitor state persists across polls or is shared
between chats — the fire outputs of any history are insensitive to the
fires that preceded them; within each calculate_sync_metrics call the
state fields last_height and last_check_time are still written together
from the same poll, never partially. -/
theorem C4_monitor_state (m : SyncMonitor) (now : ℚ) (c n : ℤ)
    (b : Bool) :
    ((m.calculate_sync_metrics now c n b).2.last_height = c ∧
     (m.calculate_sync_metrics now c n b).2.last_check_time = some now) ∧
    (∀ obs1 obs2 : List PollObs,
      actualFireOutputs (obs1 ++ obs2)
        = actualFireOutputs obs1 ++ actualFireOutputs obs2) := by
  refine ⟨⟨rfl, rfl⟩, ?_⟩
  intro obs1 obs2
  induction obs1 with
  | nil => rfl
  | cons o rest ih => simp [actualFireOutputs, ih]

/-- C10: every fire of the periodic monitoring task builds a brand-new
SyncMonitor (last_height 0, no last_check_time, sync_speed 0) before
computing metrics, so every successfully computed periodic report —
including every report after the first — carries sync_speed = 0 and no
time_remaining, regardless of how many cycles have run. -/
theorem C10_fresh_monitor_per_fire (now : ℚ) (r1 r2 : FetchResult)
    (node : Except String NodeStatus) (metrics : SyncMetrics)
    (healthy : Bool)
    (h : send_monitoring_update true now r1 r2 node
      = some (Except.ok (metrics, healthy))) :
    metrics.sync_speed = 0 ∧ metrics.time_remaining = none := by
  unfold send_monitoring_update at h
  simp only [Bool.true_eq_false, if_false] at h
  cases hg : get_network_height r1 r2 with
  | error e =>
    unfold SyncMonitor.get_sync_status at h
    rw [hg] at h
    simp at h
  | ok nh =>
    unfold SyncMonitor.get_sync_status at h
    rw [hg] at h
    cases node with
    | error e => simp at h
    | ok st =>
      simp only [Option.some.injEq, Except.ok.injEq, Prod.mk.injEq] at h
      have hm : metrics = (SyncMonitor.init.calculate_sync_metrics now
          st.latest_block_height nh st.catching_up).1 := h.1.symm
      have hspeed : (SyncMonitor.init.calculate_sync_metrics now
          st.latest_block_height nh st.catching_up).2.sync_speed = 0 := by
        rw [calc_metrics_sync_speed]
        simp [SyncMonitor.init]
      constructor
      · rw [hm, calc_metrics_fst_sync_speed, hspeed]
      · rw [hm, calc_metrics_time_remaining, hspeed]
        norm_num

theorem C10_fresh_monitor_per_fire_witness :
    (SyncMonitor.init.calculate_sync_metrics 0 1000 2000 true).1.sync_speed
      = 0 ∧
    (SyncMonitor.init.calculate_sync_metrics 0 1000 2000
        true).1.time_remaining = none :=
  C10_fresh_monitor_per_fire 0 (FetchResult.success 2000) FetchResult.exn
    (Except.ok (NodeStatus.mk 1000 true))
    (SyncMonitor.init.calculate_sync_metrics 0 1000 2000 true).1 false rfl

/-- C6: activate is a no-op returning false when monitoring is already
active (so activating twice from a clean state leaves exactly one job
for the chat); otherwise it sets the flag, appends one repeating job at
the given interval with initial delay 10, and returns true; deactivate
returns false with no change when the flag is off — a never-activated
chat included — and otherwise clears the flag, removes every job of
that chat (keeping other chats' jobs), and returns true. -/
theorem C6_activate_deactivate (monitoring : Bool) (jobs : List Job)
    (chat_id interval : ℤ) :
    (monitoring = true →
      activate_monitoring monitoring jobs chat_id interval
        = (false, (monitoring, jobs))) ∧
    (monitoring = false →
      activate_monitoring monitoring jobs chat_id interval
        = (true, (true, jobs ++ [Job.mk chat_id interval 10]))) ∧
    (monitoring = false →
      ((jobs.filter (fun j => j.chat_id = chat_id)).length = 0 →
        (activate_monitoring
            (activate_monitoring monitoring jobs chat_id interval).2.1
            (activate_monitoring monitoring jobs chat_id interval).2.2
            chat_id interval).1 = false ∧
        (((activate_monitoring
            (activate_monitoring monitoring jobs chat_id interval).2.1
            (activate_monitoring monitoring jobs chat_id interval).2.2
            chat_id interval).2.2).filter
              (fun j => j.chat_id = chat_id)).length = 1)) ∧
    (monitoring = false →
      deactivate_monitoring monitoring jobs chat_id
        = (false, (monitoring, jobs))) ∧
    (monitoring = true →
      (deactivate_monitoring monitoring jobs chat_id).1 = true ∧
      (deactivate_monitoring monitoring jobs chat_id).2.1 = false ∧
      ((deactivate_monitoring monitoring jobs chat_id).2.2).filter
          (fun j => j.chat_id = chat_id) = [] ∧
      ((deactivate_monitoring monitoring jobs chat_id).2.2).filter
          (fun j => j.chat_id ≠ chat_id)
        = jobs.filter (fun j => j.chat_id ≠ chat_id)) := by
  refine ⟨?_, ?_, ?_, ?_, ?_⟩
  · intro h
    subst h
    simp [activate_monitoring]
  · intro h
    subst h
    simp [activate_monitoring]
  · intro h hcount
    subst h
    constructor
    · simp [activate_monitoring]
    · simp only [activate_monitoring, Bool.false_eq_true, if_false,
        if_true]
      rw [List.filter_append]
      simp only [List.length_append]
      rw [List.length_eq_zero] at hcount
      rw [hcount]
      simp
  · intro h
    subst h
    simp [deactivate_monitoring]
  · intro h
    subst h
    refine ⟨rfl, rfl, ?_, ?_⟩
    · simp only [deactivate_monitoring, not_true, if_false]
      rw [List.filter_filter]
      apply List.filter_eq_nil_iff.mpr
      intro j _
      simp
    · simp only [deactivate_monitoring, not_true, if_false]
      rw [List.filter_filter]
      congr 1
      funext j
      simp [Bool.and_self]

theorem C6_activate_deactivate_witness :
    activate_monitoring true [] 1 300 = (false, (true, [])) ∧
    activate_monitoring false [] 1 300
      = (true, (true, [Job.mk 1 300 10])) ∧
    deactivate_monitoring false [] 1 = (false, (false, [])) ∧
    (deactivate_monitoring true [Job.mk 1 300 10, Job.mk 2 60 10] 1).2.2
      = [Job.mk 2 60 10] := by
  refine ⟨?_, ?_, ?_, ?_⟩
  · exact (C6_activate_deactivate true [] 1 300).1 rfl
  · exact (C6_activate_deactivate false [] 1 300).2.1 rfl
  · exact (C6_activate_deactivate false [] 1 300).2.2.2.1 rfl
  · have h := (C6_activate_deactivate true
      [Job.mk 1 300 10, Job.mk 2 60 10] 1 300).2.2.2.2 rfl
    rfl

/-- C7: after deactivate returns for a chat, and as long as the chat is
not activated again, every later fire of that chat — a pending fire
included — reads the cleared flag inside send_monitoring_update and
silently delivers nothing, with no error. -/
theorem C7_no_fire_after_deactivate (chat_id : ℤ) (s : Bool × List Job)
    (evs : List ChatEvent)
    (hna : ∀ e ∈ evs, ∀ i : ℤ, e ≠ ChatEvent.activate i) :
    ∀ o ∈ chatRun chat_id
        (chatStep chat_id s ChatEvent.deactivate).1 evs, o = none := by
  obtain ⟨flag, jobs⟩ := s
  cases flag with
  | false =>
    have hstate : (chatStep chat_id (false, jobs) ChatEvent.deactivate).1
        = (false, jobs) := by
      simp [chatStep, deactivate_monitoring]
    rw [hstate]
    exact chatRun_inactive chat_id evs jobs hna
  | true =>
    have hstate : (chatStep chat_id (true, jobs) ChatEvent.deactivate).1
        = (false, jobs.filter (fun j => j.chat_id ≠ chat_id)) := by
      simp [chatStep, deactivate_monitoring]
    rw [hstate]
    exact chatRun_inactive chat_id evs _ hna

theorem C7_no_fire_after_deactivate_witness :
    send_monitoring_update false 0 (FetchResult.success 2000)
      FetchResult.exn (Except.ok (NodeStatus.mk 1000 true)) = none := by
  have h := C7_no_fire_after_deactivate 1 (true, [Job.mk 1 300 10])
    [ChatEvent.fire (PollObs.mk 0 (FetchResult.success 2000)
      FetchResult.exn (Except.ok (NodeStatus.mk 1000 true)))]
    (by
      intro e he i
      simp only [List.mem_singleton] at he
      subst he
      simp)
  exact h _ (List.mem_cons_self _ _)

/-- C8 amended: whenever the split_message loop terminates, its parts
each have at most max_length characters and concatenate in order to the
original text exactly, and for an over-long input the first cut is at
the last newline strictly before the max_length boundary when the
searched window holds one, and at exactly max_length characters
otherwise — not always at a newline boundary. -/
theorem C8_split_message (fuel max_length : Nat) (message : List Char)
    (parts : List (List Char))
    (h : split_message_fuel fuel message max_length = some parts) :
    parts.flatten = message ∧
    (∀ p ∈ parts, p.length ≤ max_length) ∧
    (max_length < message.length →
      parts.head?
        = some (message.take (split_index_of message max_length))) := by
  obtain ⟨hjoin, hlens⟩ := split_message_fuel_sound max_length fuel
    message parts h
  refine ⟨hjoin, hlens, ?_⟩
  intro hlen
  cases fuel with
  | zero => exact absurd h (by simp [split_message_fuel])
  | succ f =>
    simp only [split_message_fuel] at h
    rw [if_pos hlen] at h
    cases hrec : split_message_fuel f
        (split_message_step message max_length).2 max_length with
    | none =>
      rw [hrec] at h
      exact absurd h (by simp)
    | some parts2 =>
      rw [hrec] at h
      simp only [Option.some.injEq] at h
      subst h
      rfl

theorem C8_split_message_witness :
    ([['a', 'b'], [Char.ofNat 10, 'c', 'd', 'e', 'f']] :
        List (List Char)).flatten
      = ['a', 'b', Char.ofNat 10, 'c', 'd', 'e', 'f'] ∧
    (∀ p ∈ ([['a', 'b'], [Char.ofNat 10, 'c', 'd', 'e', 'f']] :
        List (List Char)), p.length ≤ 5) ∧
    (5 < (['a', 'b', Char.ofNat 10, 'c', 'd', 'e', 'f'] :
        List Char).length →
      ([['a', 'b'], [Char.ofNat 10, 'c', 'd', 'e', 'f']] :
          List (List Char)).head?
        = some ((['a', 'b', Char.ofNat 10, 'c', 'd', 'e', 'f'] :
            List Char).take
            (split_index_of
              ['a', 'b', Char.ofNat 10, 'c', 'd', 'e', 'f'] 5))) :=
  C8_split_message 2 5 ['a', 'b', Char.ofNat 10, 'c', 'd', 'e', 'f']
    [['a', 'b'], [Char.ofNat 10, 'c', 'd', 'e', 'f']] rfl

/-- C8 counterexample: 4001 letters with no newline anywhere. The loop
terminates with parts [4000 letters, 1 letter]: the cut falls at the
bare 4000-character boundary, which is not a newline boundary — both
surrounding characters are the letter a. -/
theorem C8_counterexample :
    split_message_fuel 2 (List.replicate 4001 'a') 4000
      = some [List.replicate 4000 'a', List.replicate 1 'a'] ∧
    ('a' : Char) ≠ Char.ofNat 10 := by
  have hrf : rfind (Char.ofNat 10) (List.replicate 4001 'a') 4000 = none :=
    rfind_replicate (Char.ofNat 10) 'a' (by decide) 4001 4000
  have hidx : split_index_of (List.replicate 4001 'a') 4000 = 4000 := by
    unfold split_index_of
    rw [hrf]
  have hlen : (List.replicate 4001 'a').length = 4001 :=
    List.length_replicate 4001 'a'
  have hstep1 : (split_message_step (List.replicate 4001 'a') 4000).1
      = List.replicate 4000 'a' := by
    simp only [split_message_step, hidx]
    rw [List.take_replicate]
    norm_num
  have hstep2 : (split_message_step (List.replicate 4001 'a') 4000).2
      = List.replicate 1 'a' := by
    simp only [split_message_step, hidx]
    rw [List.drop_replicate]
  constructor
  · show split_message_fuel (Nat.succ 1) (List.replicate 4001 'a') 4000
      = some [List.replicate 4000 'a', List.replicate 1 'a']
    rw [split_message_fuel_succ, hlen, if_pos (by norm_num), hstep2,
      hstep1]
    have hsmall : split_message_fuel 1 (List.replicate 1 'a') 4000
        = some [List.replicate 1 'a'] := by
      show split_message_fuel (Nat.succ 0) (List.replicate 1 'a') 4000
        = some [List.replicate 1 'a']
      rw [split_message_fuel_succ,
        if_neg (by rw [List.length_replicate]; omega)]
    rw [hsmall]
  · decide

/-- C9: the split_message loop never terminates on stuck_input — no
amount of fuel makes it produce a result, refuting termination on every
input. -/
theorem C9_split_message_divergence (fuel : Nat) :
    split_message_fuel fuel stuck_input 4000 = none := by
  have hidx : split_index_of stuck_input 4000 = 0 := by
    unfold split_index_of stuck_input
    rw [show (4000 : Nat) = 3999 + 1 from rfl, rfind_cons_succ,
      rfind_replicate (Char.ofNat 10) 'a' (by decide) (3999 + 1) 3999]
    simp
  have hlen : 4000 < stuck_input.length := by
    rw [stuck_input, List.length_cons, List.length_replicate]
    omega
  exact split_message_fuel_stuck stuck_input 4000 hidx hlen fuel
